import Mathlib

/-!
Shallow embedding of the zen-particles hand-gesture camera controller
(the `HandTracker` component, file `src/components/Controls.tsx` of the
repository) and of the procedural geometry generator
(`src/utils/geometryFactory.ts`).

JavaScript numbers are modelled as real numbers.  Each call to
`Math.random()` is modelled as an explicit parameter, assumed to lie in
`[0, 1]` where a claim needs it.  The mutable refs of the tracker
component (`lastVideoTime`, `lastPan`, `lastZoom`, `baseWristPos`,
`controlsRef`) become the fields of an explicit state record threaded
through a pure per-frame step function `processFrame`; the
`onControls` callback invocation is modelled as the optional
`HandControls` value returned by the step.
-/

open scoped Classical

noncomputable section

/-- A MediaPipe normalized hand landmark: a 3-D point. -/
structure Landmark where
  x : ℝ
  y : ℝ
  z : ℝ

/-- JS array indexing `landmarks[i]`, total with a default landmark; the
tracker only ever indexes into 21-landmark hands. -/
def getL (landmarks : List Landmark) (i : ℕ) : Landmark :=
  landmarks.getD i ⟨0, 0, 0⟩

/-- `distance3d` of Controls.tsx: Euclidean distance of two landmarks. -/
def distance3d (a b : Landmark) : ℝ :=
  Real.sqrt ((a.x - b.x) * (a.x - b.x) + (a.y - b.y) * (a.y - b.y) +
    (a.z - b.z) * (a.z - b.z))

/-- The `avgTip` value of `computeTension`: average wrist-to-fingertip
distance over landmarks 4, 8, 12, 16, 20 (reduce with initial 0, then
divide by the list length). -/
def avgTipDistance (landmarks : List Landmark) : ℝ :=
  let wrist := getL landmarks 0
  let fingerTips := [4, 8, 12, 16, 20].map (fun i => getL landmarks i)
  (fingerTips.foldl (fun acc tip => acc + distance3d tip wrist) 0) /
    (fingerTips.length : ℝ)

/-- The `palmSize` value of `computeTension`: average wrist-to-base
distance over landmarks 5, 9, 13, 17. -/
def palmSizeDistance (landmarks : List Landmark) : ℝ :=
  let wrist := getL landmarks 0
  let bases := [5, 9, 13, 17].map (fun i => getL landmarks i)
  (bases.foldl (fun acc b => acc + distance3d b wrist) 0) /
    (bases.length : ℝ)

/-- `computeTension` of Controls.tsx.  `Math.min(Math.max(e, lo), hi)`
is `min (max e lo) hi`. -/
def computeTension (landmarks : List Landmark) : ℝ :=
  let openRatio := avgTipDistance landmarks / (palmSizeDistance landmarks * 1.6)
  let tension := 1 - min (max openRatio 0) 1
  min (max tension 0) 1

/-- `HandControls` of types.ts (the `ControlSignal` of the spec). -/
structure HandControls where
  zoom : ℝ
  panX : ℝ
  panY : ℝ
  hasBothHands : Bool

/-- The mutable refs of the `HandTracker` component that frame
processing reads and writes. -/
structure TrackerState where
  lastVideoTime : ℝ
  lastPan : ℝ × ℝ
  lastZoom : ℝ
  baseWristPos : Option (ℝ × ℝ)
  controls : HandControls

/-- The initial ref values of the component:
`lastVideoTime = -1`, `lastPan = {x:0,y:0}`, `lastZoom = 1`,
`baseWristPos = null`, `controlsRef = {zoom:1,panX:0,panY:0,hasBothHands:false}`. -/
def initialState : TrackerState :=
  ⟨-1, (0, 0), 1, none, ⟨1, 0, 0, false⟩⟩

/-- `THREE.MathUtils.clamp value lo hi = Math.max(lo, Math.min(hi, value))`. -/
def clamp (value lo hi : ℝ) : ℝ := max lo (min hi value)

/-- One invocation of `processFrame` of Controls.tsx, as a pure step:
given the current refs, the video timestamp of this tick and the list
of detected hands, return the updated refs and the `HandControls`
value passed to `onControls` (`none` when the tick is skipped because
the video timestamp has not advanced; in the component the tick then
merely re-schedules itself via `requestAnimationFrame`). -/
def processFrame (st : TrackerState) (videoTime : ℝ)
    (hands : List (List Landmark)) : TrackerState × Option HandControls :=
  if st.lastVideoTime = videoTime then
    (st, none)
  else
    match hands with
    | hand :: _ =>
        let wrist := getL hand 0
        let tension := computeTension hand
        -- initialize base position on first detection
        let base0 :=
          match st.baseWristPos with
          | none => (wrist.x, wrist.y)
          | some b => b
        let targetZoom := 0.5 + tension * 2.0
        let newZoom := st.lastZoom * 0.7 + targetZoom * 0.3
        if tension > 0.7 then
          -- fist closed: pan from wrist delta relative to the anchor
          let dx := (wrist.x - base0.1) * 6.0
          let dy := -(wrist.y - base0.2) * 6.0
          let newPan := (st.lastPan.1 * 0.6 + dx * 0.4, st.lastPan.2 * 0.6 + dy * 0.4)
          let c : HandControls :=
            ⟨min (max newZoom 0.5) 2.5, clamp newPan.1 (-1) 1, clamp newPan.2 (-1) 1, false⟩
          (⟨videoTime, newPan, newZoom, some base0, c⟩, some c)
        else
          -- hand open: re-latch the anchor, decay pan by 0.85, no clamping
          let newPan := (st.lastPan.1 * 0.85, st.lastPan.2 * 0.85)
          let c : HandControls :=
            ⟨min (max newZoom 0.5) 2.5, newPan.1, newPan.2, false⟩
          (⟨videoTime, newPan, newZoom, some (wrist.x, wrist.y), c⟩, some c)
    | [] =>
        -- no hand: clear the anchor, decay pan by 0.9, spread previous controls
        let newPan := (st.lastPan.1 * 0.9, st.lastPan.2 * 0.9)
        let c : HandControls :=
          ⟨st.controls.zoom, newPan.1, newPan.2, false⟩
        (⟨videoTime, newPan, st.lastZoom, none, c⟩, some c)

/-- One processed no-hand frame (with an advanced video timestamp, so
the tick is not skipped). -/
def stepNoHand (st : TrackerState) : TrackerState :=
  (processFrame st (st.lastVideoTime + 1) []).1

/-- Magnitude of the smoothed pan vector. -/
def panMag (st : TrackerState) : ℝ :=
  Real.sqrt (st.lastPan.1 * st.lastPan.1 + st.lastPan.2 * st.lastPan.2)

/-- Tracker states reachable from the component's initial refs by any
sequence of processed frames. -/
inductive Reachable : TrackerState → Prop where
  | init : Reachable initialState
  | step (st : TrackerState) (t : ℝ) (hands : List (List Landmark)) :
      Reachable st → Reachable (processFrame st t hands).1

/-- A concrete 21-landmark hand describing a fully closed fist with the
wrist at `(a, b, 0)`: all five fingertips coincide with the wrist and
the four palm-base landmarks sit at depth 1 below it, so
`avgTip = 0`, `palmSize = 1` and the tension is 1. -/
def closedHandAt (a b : ℝ) : List Landmark :=
  let w : Landmark := ⟨a, b, 0⟩
  let p : Landmark := ⟨a, b, 1⟩
  [w, w, w, w, w, p, w, w, w, p, w, w, w, p, w, w, w, p, w, w, w]

/-- A concrete 21-landmark hand describing a fully open hand with the
wrist at `(a, b, 0)`: the fingertips sit at depth 2 and the palm-base
landmarks at depth 1, so `avgTip = 2 ≥ 1.6 * palmSize` and the tension
is 0. -/
def openHandAt (a b : ℝ) : List Landmark :=
  let w : Landmark := ⟨a, b, 0⟩
  let t : Landmark := ⟨a, b, 2⟩
  let p : Landmark := ⟨a, b, 1⟩
  [w, w, w, w, t, p, w, w, t, p, w, w, t, p, w, w, t, p, w, w, t]

/-- A 21-landmark hand with every landmark at the origin: the
degenerate input on which the spec's two tension corner cases
conflict. -/
def degenerateHand : List Landmark :=
  List.replicate 21 ⟨0, 0, 0⟩

/-- The tracker state after processing a closed fist at wrist (0,0) at
time 1 from the initial state. -/
def cexSt1 : TrackerState :=
  (processFrame initialState 1 [closedHandAt 0 0]).1

/-- The tracker state after additionally processing a closed fist at
wrist (1,0) at time 2: the smoothed pan x-component is now 2.4. -/
def cexSt2 : TrackerState :=
  (processFrame cexSt1 2 [closedHandAt 1 0]).1

/-- The control signal emitted on the subsequent open-hand frame:
`panX = 2.4 * 0.85 = 2.04`, outside `[-1, 1]`. -/
def cexOut : HandControls :=
  ⟨2771 / 2000, 51 / 25, 0, false⟩

/-- A sample tracker state with a nonzero pan, used to instantiate
hypotheses of the frame-effect theorems. -/
def sampleState : TrackerState :=
  ⟨0, (1, 0), 1, none, ⟨1, 0, 0, false⟩⟩

/-- The state after one processed no-hand frame from `sampleState`. -/
def sampleStateAfter : TrackerState :=
  ⟨1, (0.9, 0), 1, none, ⟨1, 0.9, 0, false⟩⟩

/-- The signal emitted on that frame. -/
def sampleOut : HandControls :=
  ⟨1, 0.9, 0, false⟩

/-! ### Geometry generator (`src/utils/geometryFactory.ts`) -/

/-- `rand(min, max) = Math.random() * (max - min) + min`, with the
`Math.random()` draw made explicit as `u`. -/
def rand (u lo hi : ℝ) : ℝ := u * (hi - lo) + lo

/-- `randomOnSphere(radius)`: inverse-CDF polar sampling of a point on
the sphere surface; `u`, `v` are the two `Math.random()` draws. -/
def randomOnSphere (u v radius : ℝ) : ℝ × ℝ × ℝ :=
  let theta := 2 * Real.pi * u
  let phi := Real.arccos (2 * v - 1)
  (radius * Real.sin phi * Real.cos theta,
   radius * Real.sin phi * Real.sin theta,
   radius * Real.cos phi)

/-- `randomInSphere(radius)`: uniform volume sampling; `u`, `v`, `w`
are the three `Math.random()` draws (`Math.cbrt` on a draw in `[0,1)`
is the real cube root, i.e. rpow by 1/3). -/
def randomInSphere (u v w radius : ℝ) : ℝ × ℝ × ℝ :=
  let r := radius * u ^ ((1 : ℝ) / 3)
  let theta := 2 * Real.pi * v
  let phi := Real.arccos (2 * w - 1)
  (r * Real.sin phi * Real.cos theta,
   r * Real.sin phi * Real.sin theta,
   r * Real.cos phi)

/-- `heartPoint()`: 2-D heart curve swept with random depth and
rotation; `u0 u1 u2 u3` are the four `Math.random()` draws used by the
`rand` calls, in source order. -/
def heartPoint (u0 u1 u2 u3 : ℝ) : ℝ × ℝ × ℝ :=
  let t := rand u0 0 Real.pi
  let r := rand u1 0.72 1
  let x2d := 16 * Real.sin t ^ 3
  let y2d := 13 * Real.cos t - 5 * Real.cos (2 * t) - 2 * Real.cos (3 * t) -
    Real.cos (4 * t)
  let scale := 0.025 * r
  let depth := rand u2 (-0.35) 0.35
  let angle := rand u3 0 (Real.pi * 2)
  (x2d * scale * Real.cos angle - depth * Real.sin angle,
   y2d * scale,
   x2d * scale * Real.sin angle + depth * Real.cos angle)

/-- `phyllotaxisPoint(i, total)`: deterministic golden-angle spiral
placement; consumes no random draws. -/
def phyllotaxisPoint (i total : ℕ) : ℝ × ℝ × ℝ :=
  let golden := Real.pi * (3 - Real.sqrt 5)
  let radius := Real.sqrt ((i : ℝ) / (total : ℝ)) * 1.25
  let theta := (i : ℝ) * golden
  (radius * Real.cos theta,
   Real.sin (radius * 1.3) * 0.35,
   radius * Real.sin theta)

/-- `saturnPoint(i, total)`: ring annulus when `i / total > 0.4`, else
a sphere-shell planet of radius `1 - 0.45`; `u0 u1 u2` are the
`Math.random()` draws of the taken branch, in source order. -/
def saturnPoint (i total : ℕ) (u0 u1 u2 : ℝ) : ℝ × ℝ × ℝ :=
  let ringRatio := (0.45 : ℝ)
  if (i : ℝ) / (total : ℝ) > 0.4 then
    let radius := rand u0 1.4 2.1
    let angle := rand u1 0 (Real.pi * 2)
    let thickness := rand u2 (-0.12) 0.12
    (radius * Real.cos angle, thickness, radius * Real.sin angle)
  else
    randomOnSphere u0 u1 (1 - ringRatio)

/-- `buddhaPoint()`: three-way probabilistic region split;
`u0` is the region draw and `u1 u2 u3` the draws of the taken branch. -/
def buddhaPoint (u0 u1 u2 u3 : ℝ) : ℝ × ℝ × ℝ :=
  if u0 < 0.35 then
    let p := randomOnSphere u1 u2 0.55
    (p.1, p.2.1 + 1.1, p.2.2)
  else if u0 < 0.75 then
    let p := randomInSphere u1 u2 u3 1
    (p.1 * 0.8, p.2.1 * 0.9, p.2.2 * 0.6)
  else
    let angle := rand u1 0 (Real.pi * 2)
    let r := rand u2 0.9 1.2
    let tube := rand u3 (-0.22) 0.22
    ((r + tube * Real.cos angle) * Real.cos angle,
     tube - 1.05,
     (r + tube * Real.sin angle) * Real.sin angle)

/-- The `ShapeType` union of types.ts: the six shape tags offered by
the UI, plus one extra constructor standing for an unrecognized tag so
that the `default` arm of the `switch` in `generateGeometry` is
represented. -/
inductive ShapeType where
  | sphere
  | heart
  | flower
  | saturn
  | buddha
  | fireworks
  | defaultShape

/-- The `switch (type)` body of `generateGeometry` for loop index `i`:
the point placed at index `i` out of `count`.  `rng i j` is the j-th
`Math.random()` draw consumed while computing point `i`. -/
def shapePoint (type : ShapeType) (count : ℕ) (rng : ℕ → ℕ → ℝ) (i : ℕ) :
    ℝ × ℝ × ℝ :=
  match type with
  | ShapeType.sphere => randomOnSphere (rng i 0) (rng i 1) 1.1
  | ShapeType.heart => heartPoint (rng i 0) (rng i 1) (rng i 2) (rng i 3)
  | ShapeType.flower => phyllotaxisPoint i count
  | ShapeType.saturn => saturnPoint i count (rng i 0) (rng i 1) (rng i 2)
  | ShapeType.buddha => buddhaPoint (rng i 0) (rng i 1) (rng i 2) (rng i 3)
  | ShapeType.fireworks =>
      randomInSphere (rng i 1) (rng i 2) (rng i 3) (rand (rng i 0) 1 1.8)
  | ShapeType.defaultShape => randomOnSphere (rng i 0) (rng i 1) 1

/-- `generateGeometry(type, count)`: the flat `Float32Array` of
`count * 3` interleaved coordinates, position `i` writing indices
`3*i`, `3*i+1`, `3*i+2`. -/
def generateGeometry (type : ShapeType) (count : ℕ) (rng : ℕ → ℕ → ℝ) :
    List ℝ :=
  (List.range count).flatMap fun i =>
    let point := shapePoint type count rng i
    [point.1, point.2.1, point.2.2]

/-- The consecutive coordinate triple at position `i` of a flat buffer. -/
def pointAt (buf : List ℝ) (i : ℕ) : ℝ × ℝ × ℝ :=
  (buf.getD (3 * i) 0, buf.getD (3 * i + 1) 0, buf.getD (3 * i + 2) 0)

/-- Euclidean distance of a point from the origin. -/
def normFromOrigin (p : ℝ × ℝ × ℝ) : ℝ :=
  Real.sqrt (p.1 ^ 2 + p.2.1 ^ 2 + p.2.2 ^ 2)

/-- Horizontal distance of a point from the vertical (y) axis. -/
def horizontalDist (p : ℝ × ℝ × ℝ) : ℝ :=
  Real.sqrt (p.1 ^ 2 + p.2.2 ^ 2)

/-! ### Branch characterizations of `processFrame`, used by the lemmas.
Each spells out one arm of the step function; the theorems
`processFrame_closed` / `processFrame_open` / `processFrame_nohand`
below prove they agree with `processFrame`. -/

/-- The fist-closed arm (hand detected, tension above 0.7). -/
def closedFrame (st : TrackerState) (t : ℝ) (hand : List Landmark) :
    TrackerState × Option HandControls :=
  let wrist := getL hand 0
  let base0 := st.baseWristPos.getD (wrist.x, wrist.y)
  let newZoom := st.lastZoom * 0.7 + (0.5 + computeTension hand * 2.0) * 0.3
  let newPan := (st.lastPan.1 * 0.6 + ((wrist.x - base0.1) * 6.0) * 0.4,
                 st.lastPan.2 * 0.6 + (-(wrist.y - base0.2) * 6.0) * 0.4)
  let c : HandControls :=
    ⟨min (max newZoom 0.5) 2.5, clamp newPan.1 (-1) 1, clamp newPan.2 (-1) 1, false⟩
  (⟨t, newPan, newZoom, some base0, c⟩, some c)

/-- The hand-open arm (hand detected, tension at most 0.7). -/
def openFrame (st : TrackerState) (t : ℝ) (hand : List Landmark) :
    TrackerState × Option HandControls :=
  let wrist := getL hand 0
  let newZoom := st.lastZoom * 0.7 + (0.5 + computeTension hand * 2.0) * 0.3
  let newPan := (st.lastPan.1 * 0.85, st.lastPan.2 * 0.85)
  let c : HandControls :=
    ⟨min (max newZoom 0.5) 2.5, newPan.1, newPan.2, false⟩
  (⟨t, newPan, newZoom, some (wrist.x, wrist.y), c⟩, some c)

/-- The no-hand arm. -/
def noHandFrame (st : TrackerState) (t : ℝ) :
    TrackerState × Option HandControls :=
  let newPan := (st.lastPan.1 * 0.9, st.lastPan.2 * 0.9)
  let c : HandControls := ⟨st.controls.zoom, newPan.1, newPan.2, false⟩
  (⟨t, newPan, st.lastZoom, none, c⟩, some c)

end

/-! ## Lemmas and theorems -/

theorem processFrame_skip (st : TrackerState) (t : ℝ)
    (hands : List (List Landmark)) (h : st.lastVideoTime = t) :
    processFrame st t hands = (st, none) := by
  simp only [processFrame, if_pos h]

theorem processFrame_nohand (st : TrackerState) (t : ℝ)
    (h : st.lastVideoTime ≠ t) :
    processFrame st t [] = noHandFrame st t := by
  simp only [processFrame, noHandFrame, if_neg h]

theorem processFrame_closed (st : TrackerState) (t : ℝ)
    (hand : List Landmark) (rest : List (List Landmark))
    (h : st.lastVideoTime ≠ t) (hfist : computeTension hand > 0.7) :
    processFrame st t (hand :: rest) = closedFrame st t hand := by
  cases hb : st.baseWristPos <;>
    simp only [processFrame, closedFrame, if_neg h, if_pos hfist, hb,
      Option.getD_some, Option.getD_none]

theorem processFrame_open (st : TrackerState) (t : ℝ)
    (hand : List Landmark) (rest : List (List Landmark))
    (h : st.lastVideoTime ≠ t) (hopen : ¬ computeTension hand > 0.7) :
    processFrame st t (hand :: rest) = openFrame st t hand := by
  cases hb : st.baseWristPos <;>
    simp only [processFrame, openFrame, if_neg h, if_neg hopen, hb]

theorem sqrt_four : Real.sqrt 4 = 2 := by
  rw [show (4 : ℝ) = 2 ^ 2 by norm_num, Real.sqrt_sq (by norm_num)]

theorem avgTip_closedHandAt (a b : ℝ) :
    avgTipDistance (closedHandAt a b) = 0 := by
  simp [avgTipDistance, closedHandAt, getL, distance3d]

theorem palmSize_closedHandAt (a b : ℝ) :
    palmSizeDistance (closedHandAt a b) = 1 := by
  simp [palmSizeDistance, closedHandAt, getL, distance3d]
  norm_num

theorem computeTension_closedHandAt (a b : ℝ) :
    computeTension (closedHandAt a b) = 1 := by
  simp [computeTension, avgTip_closedHandAt, palmSize_closedHandAt]

theorem avgTip_openHandAt (a b : ℝ) :
    avgTipDistance (openHandAt a b) = 2 := by
  simp [avgTipDistance, openHandAt, getL, distance3d]
  norm_num [show ((2 : ℝ) * 2) = 4 by norm_num, sqrt_four]

theorem palmSize_openHandAt (a b : ℝ) :
    palmSizeDistance (openHandAt a b) = 1 := by
  simp [palmSizeDistance, openHandAt, getL, distance3d]
  norm_num

theorem computeTension_openHandAt (a b : ℝ) :
    computeTension (openHandAt a b) = 0 := by
  simp [computeTension, avgTip_openHandAt, palmSize_openHandAt]
  norm_num [max_eq_left, min_eq_right]

theorem avgTip_degenerateHand : avgTipDistance degenerateHand = 0 := by
  simp [avgTipDistance, degenerateHand, getL, distance3d]

theorem palmSize_degenerateHand : palmSizeDistance degenerateHand = 0 := by
  simp [palmSizeDistance, degenerateHand, getL, distance3d]

theorem eval_frame1 :
    processFrame initialState 1 [closedHandAt 0 0] =
      (⟨1, (0, 0), 1.45, some (0, 0), ⟨1.45, 0, 0, false⟩⟩,
       some ⟨1.45, 0, 0, false⟩) := by
  rw [processFrame_closed _ _ _ _ (by norm_num [initialState])
    (by rw [computeTension_closedHandAt]; norm_num)]
  simp only [closedFrame, initialState, computeTension_closedHandAt]
  norm_num [getL, closedHandAt, clamp, min_def, max_def]

theorem cexSt1_eq :
    cexSt1 = ⟨1, (0, 0), 1.45, some (0, 0), ⟨1.45, 0, 0, false⟩⟩ := by
  rw [cexSt1, eval_frame1]

theorem eval_frame2 :
    processFrame cexSt1 2 [closedHandAt 1 0] =
      (⟨2, (2.4, 0), 1.765, some (0, 0), ⟨1.765, 1, 0, false⟩⟩,
       some ⟨1.765, 1, 0, false⟩) := by
  rw [cexSt1_eq, processFrame_closed _ _ _ _ (by norm_num)
    (by rw [computeTension_closedHandAt]; norm_num)]
  simp only [closedFrame, computeTension_closedHandAt]
  norm_num [getL, closedHandAt, clamp, min_def, max_def]

theorem cexSt2_eq :
    cexSt2 = ⟨2, (2.4, 0), 1.765, some (0, 0), ⟨1.765, 1, 0, false⟩⟩ := by
  rw [cexSt2, eval_frame2]

theorem eval_frame3 :
    processFrame cexSt2 3 [openHandAt 0 0] =
      (⟨3, (2.04, 0), 1.3855, some (0, 0), cexOut⟩, some cexOut) := by
  rw [cexSt2_eq, processFrame_open _ _ _ _ (by norm_num)
    (by rw [computeTension_openHandAt]; norm_num)]
  simp only [openFrame, computeTension_openHandAt, cexOut]
  norm_num [getL, openHandAt, min_def, max_def]

theorem eval_sample_nohand :
    processFrame sampleState 1 [] = (sampleStateAfter, some sampleOut) := by
  rw [processFrame_nohand _ _ (by norm_num [sampleState])]
  simp only [noHandFrame, sampleState, sampleStateAfter, sampleOut]
  norm_num

theorem triple_length (f : ℕ → ℝ × ℝ × ℝ) (n : ℕ) :
    ((List.range n).flatMap fun j => [(f j).1, (f j).2.1, (f j).2.2]).length
      = 3 * n := by
  induction n with
  | zero => simp
  | succ m ih =>
      rw [List.range_succ, List.flatMap_append, List.length_append, ih]
      simp [Nat.mul_succ]

theorem triple_getD (f : ℕ → ℝ × ℝ × ℝ) :
    ∀ n i, i < n →
      pointAt ((List.range n).flatMap fun j => [(f j).1, (f j).2.1, (f j).2.2]) i
        = f i := by
  intro n
  induction n with
  | zero => exact fun i h => absurd h (Nat.not_lt_zero i)
  | succ m ih =>
      intro i hi
      have hlen := triple_length f m
      unfold pointAt
      rw [List.range_succ, List.flatMap_append]
      rcases Nat.lt_or_ge i m with h | h
      · rw [List.getD_append _ _ _ _ (by rw [hlen]; omega),
          List.getD_append _ _ _ _ (by rw [hlen]; omega),
          List.getD_append _ _ _ _ (by rw [hlen]; omega)]
        have hih := ih i h
        unfold pointAt at hih
        exact hih
      · have him : i = m := by omega
        subst him
        rw [List.getD_append_right _ _ _ _ hlen.le,
          List.getD_append_right _ _ _ _ (by rw [hlen]; omega),
          List.getD_append_right _ _ _ _ (by rw [hlen]; omega), hlen]
        have e0 : 3 * i - 3 * i = 0 := by omega
        have e1 : 3 * i + 1 - 3 * i = 1 := by omega
        have e2 : 3 * i + 2 - 3 * i = 2 := by omega
        rw [e0, e1, e2]
        simp [List.flatMap_singleton, List.getD_cons_zero, List.getD_cons_succ]

theorem randomOnSphere_norm (u v r : ℝ) (hr : 0 ≤ r) :
    normFromOrigin (randomOnSphere u v r) = r := by
  simp only [normFromOrigin, randomOnSphere]
  generalize 2 * Real.pi * u = theta
  generalize Real.arccos (2 * v - 1) = phi
  have h1 := Real.sin_sq_add_cos_sq theta
  have h2 := Real.sin_sq_add_cos_sq phi
  have hsq : (r * Real.sin phi * Real.cos theta) ^ 2 +
      (r * Real.sin phi * Real.sin theta) ^ 2 + (r * Real.cos phi) ^ 2
      = r ^ 2 := by
    linear_combination r ^ 2 * Real.sin phi ^ 2 * h1 + r ^ 2 * h2
  rw [hsq, Real.sqrt_sq hr]

theorem horizontalDist_circle (R A T : ℝ) (hR : 0 ≤ R) :
    horizontalDist (R * Real.cos A, T, R * Real.sin A) = R := by
  simp only [horizontalDist]
  have h1 := Real.sin_sq_add_cos_sq A
  have hsq : (R * Real.cos A) ^ 2 + (R * Real.sin A) ^ 2 = R ^ 2 := by
    linear_combination R ^ 2 * h1
  rw [hsq, Real.sqrt_sq hR]

theorem phyllotaxis_horizontal (i total : ℕ) :
    horizontalDist (phyllotaxisPoint i total)
      = Real.sqrt ((i : ℝ) / (total : ℝ)) * 1.25 := by
  have hr : 0 ≤ Real.sqrt ((i : ℝ) / (total : ℝ)) * 1.25 :=
    mul_nonneg (Real.sqrt_nonneg _) (by norm_num)
  exact horizontalDist_circle _ _ _ hr

/-- C7: for every shape and point count, `generateGeometry` returns a
flat buffer of exactly `3 * N` floats (interleaved x, y, z), and for
the sphere shape every consecutive coordinate triple lies at Euclidean
distance exactly 1.1 from the origin, whatever the random draws. -/
theorem C7_buffer_length_and_sphere_radius :
    (∀ (type : ShapeType) (count : ℕ) (rng : ℕ → ℕ → ℝ),
        (generateGeometry type count rng).length = 3 * count) ∧
    (∀ (count : ℕ) (rng : ℕ → ℕ → ℝ) (i : ℕ), i < count →
        normFromOrigin (pointAt (generateGeometry ShapeType.sphere count rng) i)
          = 1.1) := by
  constructor
  · intro type count rng
    exact triple_length (shapePoint type count rng) count
  · intro count rng i hi
    have hp := triple_getD (shapePoint ShapeType.sphere count rng) count i hi
    rw [show pointAt (generateGeometry ShapeType.sphere count rng) i
        = shapePoint ShapeType.sphere count rng i from hp]
    exact randomOnSphere_norm _ _ _ (by norm_num)

/-- Witness for C7 at `generate('sphere', 100)` with the zero stream of
random draws: the buffer has length 300 and point 0 sits at distance
1.1 from the origin. -/
theorem C7_buffer_length_and_sphere_radius_witness :
    (generateGeometry ShapeType.sphere 100 (fun _ _ => 0)).length = 300 ∧
    (0 : ℕ) < 100 ∧
    normFromOrigin (pointAt (generateGeometry ShapeType.sphere 100 (fun _ _ => 0)) 0)
      = 1.1 := by
  refine ⟨?_, by norm_num,
    C7_buffer_length_and_sphere_radius.2 100 (fun _ _ => 0) 0 (by norm_num)⟩
  rw [C7_buffer_length_and_sphere_radius.1 ShapeType.sphere 100 (fun _ _ => 0)]

/-- C8: the flower point at index `i` of `N` is deterministic (equal to
`phyllotaxisPoint i N`, independent of the random stream), its
horizontal distance from the vertical axis is `sqrt(i/N) * 1.25`,
that distance is strictly increasing for consecutive indices, and its
y coordinate is the ripple `sin(radius * 1.3) * 0.35`. -/
theorem C8_flower_deterministic_spiral :
    ∀ (i total : ℕ), 0 < total →
      horizontalDist (phyllotaxisPoint i total)
          = Real.sqrt ((i : ℝ) / (total : ℝ)) * 1.25 ∧
      Real.sqrt ((i : ℝ) / (total : ℝ)) * 1.25
          < Real.sqrt (((i : ℝ) + 1) / (total : ℝ)) * 1.25 ∧
      (phyllotaxisPoint i total).2.1
          = Real.sin (Real.sqrt ((i : ℝ) / (total : ℝ)) * 1.25 * 1.3) * 0.35 ∧
      (∀ (count : ℕ) (rng : ℕ → ℕ → ℝ), i < count →
          pointAt (generateGeometry ShapeType.flower count rng) i
            = phyllotaxisPoint i count) := by
  intro i total htot
  have ht : (0 : ℝ) < (total : ℝ) := by exact_mod_cast htot
  refine ⟨phyllotaxis_horizontal i total, ?_, rfl, ?_⟩
  · have hlt : (i : ℝ) / (total : ℝ) < ((i : ℝ) + 1) / (total : ℝ) :=
      (div_lt_div_iff_of_pos_right ht).mpr (lt_add_one _)
    have hs := Real.sqrt_lt_sqrt (by positivity) hlt
    exact mul_lt_mul_of_pos_right hs (by norm_num)
  · intro count rng hic
    exact triple_getD (shapePoint ShapeType.flower count rng) count i hic

/-- Witness for C8 at `i = 0`, `N = 1` with the zero random stream. -/
theorem C8_flower_deterministic_spiral_witness :
    (0 : ℕ) < 1 ∧
    horizontalDist (phyllotaxisPoint 0 1)
        = Real.sqrt (((0 : ℕ) : ℝ) / ((1 : ℕ) : ℝ)) * 1.25 ∧
    Real.sqrt (((0 : ℕ) : ℝ) / ((1 : ℕ) : ℝ)) * 1.25
        < Real.sqrt ((((0 : ℕ) : ℝ) + 1) / ((1 : ℕ) : ℝ)) * 1.25 ∧
    pointAt (generateGeometry ShapeType.flower 1 (fun _ _ => 0)) 0
        = phyllotaxisPoint 0 1 := by
  have h := C8_flower_deterministic_spiral 0 1 (by norm_num)
  exact ⟨by norm_num, h.1, h.2.1, h.2.2.2 1 (fun _ _ => 0) (by norm_num)⟩

/-- C2 counterexample: the claim places the planet/ring split at index
fraction 0.6, but the code's test is `i / total > 0.4`.  At `i = 5`,
`N = 10` the index fraction 0.5 is below 0.6, yet the generated point
is a ring point: point `i = 2` (fraction 0.2) lies on the planet shell
of radius 0.55 while point `i = 5` does not lie on that shell. -/
theorem C2_saturn_split_cex :
    ((5 : ℕ) : ℝ) / ((10 : ℕ) : ℝ) < 0.6 ∧
    normFromOrigin (saturnPoint 2 10 0 0 0) = 0.55 ∧
    normFromOrigin (saturnPoint 5 10 0 0 0) ≠ 0.55 := by
  refine ⟨by norm_num, ?_, ?_⟩
  · rw [show saturnPoint 2 10 0 0 0 = randomOnSphere 0 0 (1 - 0.45) by
      unfold saturnPoint; rw [if_neg (by norm_num)]]
    rw [randomOnSphere_norm 0 0 (1 - 0.45) (by norm_num)]
    norm_num
  · have hpt : saturnPoint 5 10 0 0 0 = (1.4, -0.12, 0) := by
      unfold saturnPoint
      rw [if_pos (by norm_num)]
      norm_num [rand, Real.cos_zero, Real.sin_zero]
    rw [hpt]
    intro hcontra
    have hs : Real.sqrt ((1.4 : ℝ) ^ 2 + (-0.12 : ℝ) ^ 2 + (0 : ℝ) ^ 2) ^ 2
        = (1.4 : ℝ) ^ 2 + (-0.12 : ℝ) ^ 2 + (0 : ℝ) ^ 2 :=
      Real.sq_sqrt (by norm_num)
    unfold normFromOrigin at hcontra
    rw [hcontra] at hs
    norm_num at hs

/-- C2 amended: points with index fraction `i/N ≤ 0.4` (about 40%) are
drawn from the planet sphere shell of radius `1 - 0.45 = 0.55`; the
remaining points (about 60%) are drawn from the flat ring annulus,
whose thickness noise lies in `[-0.12, 0.12]` and whose horizontal
radius lies in `[1.4, 2.1]`, for random draws in `[0, 1]`. -/
theorem C2_saturn_split_amended :
    ∀ (i total : ℕ) (u0 u1 u2 : ℝ),
      (((i : ℝ) / (total : ℝ)) ≤ 0.4 →
        normFromOrigin (saturnPoint i total u0 u1 u2) = 0.55) ∧
      (((i : ℝ) / (total : ℝ)) > 0.4 → 0 ≤ u2 → u2 ≤ 1 →
        -0.12 ≤ (saturnPoint i total u0 u1 u2).2.1 ∧
        (saturnPoint i total u0 u1 u2).2.1 ≤ 0.12) ∧
      (((i : ℝ) / (total : ℝ)) > 0.4 → 0 ≤ u0 → u0 ≤ 1 →
        1.4 ≤ horizontalDist (saturnPoint i total u0 u1 u2) ∧
        horizontalDist (saturnPoint i total u0 u1 u2) ≤ 2.1) := by
  intro i total u0 u1 u2
  refine ⟨?_, ?_, ?_⟩
  · intro hfrac
    rw [show saturnPoint i total u0 u1 u2 = randomOnSphere u0 u1 (1 - 0.45) by
      unfold saturnPoint; rw [if_neg (not_lt.mpr hfrac)]]
    rw [randomOnSphere_norm u0 u1 (1 - 0.45) (by norm_num)]
    norm_num
  · intro hfrac h0 h1
    have hpt : (saturnPoint i total u0 u1 u2).2.1 = rand u2 (-0.12) 0.12 := by
      unfold saturnPoint; rw [if_pos hfrac]
    rw [hpt]
    unfold rand
    constructor <;> nlinarith
  · intro hfrac h0 h1
    have hradius : (0 : ℝ) ≤ rand u0 1.4 2.1 := by unfold rand; nlinarith
    have hpt : horizontalDist (saturnPoint i total u0 u1 u2) = rand u0 1.4 2.1 := by
      unfold saturnPoint
      rw [if_pos hfrac]
      exact horizontalDist_circle _ _ _ hradius
    rw [hpt]
    unfold rand
    constructor <;> nlinarith

/-- Witness for C2 amended: at `N = 10` point 2 is a planet-shell point
and point 5 a ring point with thickness `-0.12` and radius `1.4`. -/
theorem C2_saturn_split_amended_witness :
    ((2 : ℕ) : ℝ) / ((10 : ℕ) : ℝ) ≤ 0.4 ∧
    normFromOrigin (saturnPoint 2 10 0 0 0) = 0.55 ∧
    ((5 : ℕ) : ℝ) / ((10 : ℕ) : ℝ) > 0.4 ∧
    -0.12 ≤ (saturnPoint 5 10 0 0 0).2.1 ∧
    (saturnPoint 5 10 0 0 0).2.1 ≤ 0.12 ∧
    1.4 ≤ horizontalDist (saturnPoint 5 10 0 0 0) ∧
    horizontalDist (saturnPoint 5 10 0 0 0) ≤ 2.1 := by
  have hp := (C2_saturn_split_amended 2 10 0 0 0).1 (by norm_num)
  have hr1 := (C2_saturn_split_amended 5 10 0 0 0).2.1 (by norm_num)
    (by norm_num) (by norm_num)
  have hr2 := (C2_saturn_split_amended 5 10 0 0 0).2.2 (by norm_num)
    (by norm_num) (by norm_num)
  exact ⟨by norm_num, hp, by norm_num, hr1.1, hr1.2, hr2.1, hr2.2⟩

/-- C3 counterexample: on the degenerate 21-landmark hand whose
landmarks all coincide with the wrist, `avgTip = 0` and
`avgTip ≥ 1.6 * avgBase` hold simultaneously (both are averages of
plain distances, no division is involved), so the claim's two corner
cases demand `tension = 1` and `tension = 0` at once — contradictory
whatever single value the program computes there (the source in fact
computes `openRatio = 0/0 = NaN` at this input). -/
theorem C3_tension_formula_cex :
    degenerateHand.length = 21 ∧
    avgTipDistance degenerateHand = 0 ∧
    avgTipDistance degenerateHand ≥ 1.6 * palmSizeDistance degenerateHand ∧
    ¬ ((avgTipDistance degenerateHand = 0 →
          computeTension degenerateHand = 1) ∧
       (avgTipDistance degenerateHand ≥ 1.6 * palmSizeDistance degenerateHand →
          computeTension degenerateHand = 0)) := by
  have h0 := avgTip_degenerateHand
  have hge : avgTipDistance degenerateHand
      ≥ 1.6 * palmSizeDistance degenerateHand := by
    rw [avgTip_degenerateHand, palmSize_degenerateHand]; norm_num
  refine ⟨by simp [degenerateHand], h0, hge, ?_⟩
  rintro ⟨h1, h2⟩
  have e1 := h1 h0
  have e2 := h2 hge
  rw [e1] at e2
  norm_num at e2

/-- C3 amended: for every 21-landmark hand that is nondegenerate
(`avgBase > 0`, i.e. some palm-base landmark is distinct from the
wrist, so the division is by a nonzero number and the real-valued
model agrees with the source), the tension equals
`clamp(1 - clamp(avgTip / (avgBase * 1.6), 0, 1), 0, 1)` and lies in
`[0, 1]`; `avgTip = 0` yields tension 1; and `avgTip ≥ 1.6 * avgBase`
yields tension 0. -/
theorem C3_tension_formula_amended :
    ∀ landmarks : List Landmark, landmarks.length = 21 →
      0 < palmSizeDistance landmarks →
      computeTension landmarks =
          min (max (1 - min (max (avgTipDistance landmarks /
            (palmSizeDistance landmarks * 1.6)) 0) 1) 0) 1 ∧
      0 ≤ computeTension landmarks ∧ computeTension landmarks ≤ 1 ∧
      (avgTipDistance landmarks = 0 → computeTension landmarks = 1) ∧
      (1.6 * palmSizeDistance landmarks ≤ avgTipDistance landmarks →
        computeTension landmarks = 0) := by
  intro l hlen hp
  have hct : computeTension l =
      min (max (1 - min (max (avgTipDistance l /
        (palmSizeDistance l * 1.6)) 0) 1) 0) 1 := rfl
  refine ⟨hct, ?_, ?_, ?_, ?_⟩
  · rw [hct]; exact le_min (le_max_right _ _) zero_le_one
  · rw [hct]; exact min_le_right _ _
  · intro h0
    rw [hct, h0, zero_div]
    norm_num
  · intro hge
    have hpos : (0 : ℝ) < palmSizeDistance l * 1.6 := by linarith
    have hd : (1 : ℝ) ≤ avgTipDistance l / (palmSizeDistance l * 1.6) := by
      rw [le_div_iff₀ hpos]
      linarith
    have hmax : max (avgTipDistance l / (palmSizeDistance l * 1.6)) 0
        = avgTipDistance l / (palmSizeDistance l * 1.6) :=
      max_eq_left (by linarith)
    rw [hct, hmax, min_eq_right hd]
    norm_num

/-- Witness for C3 amended at the closed-fist hand: 21 landmarks,
`avgBase = 1 > 0`, `avgTip = 0`, tension 1. -/
theorem C3_tension_formula_amended_witness :
    (closedHandAt 0 0).length = 21 ∧
    0 < palmSizeDistance (closedHandAt 0 0) ∧
    avgTipDistance (closedHandAt 0 0) = 0 ∧
    computeTension (closedHandAt 0 0) = 1 := by
  have hlen : (closedHandAt 0 0).length = 21 := by simp [closedHandAt]
  have hp : 0 < palmSizeDistance (closedHandAt 0 0) := by
    rw [palmSize_closedHandAt]; norm_num
  have h := C3_tension_formula_amended (closedHandAt 0 0) hlen hp
  exact ⟨hlen, hp, avgTip_closedHandAt 0 0,
    h.2.2.2.1 (avgTip_closedHandAt 0 0)⟩

/-- C9: when the video timestamp has not advanced since the previous
processed tick, the step is a no-op: no ref changes and no signal is
emitted (the component only re-schedules the frame callback, which
the embedding models by returning the unchanged state). -/
theorem C9_stale_frame_noop :
    ∀ (st : TrackerState) (hands : List (List Landmark)),
      processFrame st st.lastVideoTime hands = (st, none) := by
  intro st hands
  exact processFrame_skip st st.lastVideoTime hands rfl

theorem emitted_eq_controls (st : TrackerState) (t : ℝ)
    (hands : List (List Landmark)) (st2 : TrackerState) (c : HandControls)
    (heq : processFrame st t hands = (st2, some c)) : c = st2.controls := by
  by_cases hskip : st.lastVideoTime = t
  · rw [processFrame_skip st t hands hskip] at heq
    simp only [Prod.mk.injEq] at heq
    exact absurd heq.2 (by simp)
  · cases hands with
    | nil =>
        rw [processFrame_nohand st t hskip] at heq
        simp only [noHandFrame, Prod.mk.injEq, Option.some.injEq] at heq
        obtain ⟨hst, hc⟩ := heq
        rw [← hst, ← hc]
    | cons hand rest =>
        by_cases hf : computeTension hand > 0.7
        · rw [processFrame_closed st t hand rest hskip hf] at heq
          simp only [closedFrame, Prod.mk.injEq, Option.some.injEq] at heq
          obtain ⟨hst, hc⟩ := heq
          rw [← hst, ← hc]
        · rw [processFrame_open st t hand rest hskip hf] at heq
          simp only [openFrame, Prod.mk.injEq, Option.some.injEq] at heq
          obtain ⟨hst, hc⟩ := heq
          rw [← hst, ← hc]

/-- C10: on a processed no-hand frame the smoothed-zoom ref is
unchanged and the emitted signal re-uses the previous signal's zoom,
updating only the pan fields; and the `hasBothHands` field of every
emitted signal, in every branch, is `false`. -/
theorem C10_nohand_zoom_unchanged_hasBothHands_false :
    (∀ (st : TrackerState) (t : ℝ) (st2 : TrackerState) (c : HandControls),
        st.lastVideoTime ≠ t → processFrame st t [] = (st2, some c) →
        st2.lastZoom = st.lastZoom ∧ c.zoom = st.controls.zoom ∧
        c.panX = st.lastPan.1 * 0.9 ∧ c.panY = st.lastPan.2 * 0.9) ∧
    (∀ (st : TrackerState) (t : ℝ) (hands : List (List Landmark))
        (st2 : TrackerState) (c : HandControls),
        processFrame st t hands = (st2, some c) → c.hasBothHands = false) := by
  constructor
  · intro st t st2 c hne heq
    rw [processFrame_nohand st t hne] at heq
    simp only [noHandFrame, Prod.mk.injEq, Option.some.injEq] at heq
    obtain ⟨hst, hc⟩ := heq
    rw [← hst, ← hc]
    exact ⟨rfl, rfl, rfl, rfl⟩
  · intro st t hands st2 c heq
    by_cases hskip : st.lastVideoTime = t
    · rw [processFrame_skip st t hands hskip] at heq
      simp only [Prod.mk.injEq] at heq
      exact absurd heq.2 (by simp)
    · cases hands with
      | nil =>
          rw [processFrame_nohand st t hskip] at heq
          simp only [noHandFrame, Prod.mk.injEq, Option.some.injEq] at heq
          rw [← heq.2]
      | cons hand rest =>
          by_cases hf : computeTension hand > 0.7
          · rw [processFrame_closed st t hand rest hskip hf] at heq
            simp only [closedFrame, Prod.mk.injEq, Option.some.injEq] at heq
            rw [← heq.2]
          · rw [processFrame_open st t hand rest hskip hf] at heq
            simp only [openFrame, Prod.mk.injEq, Option.some.injEq] at heq
            rw [← heq.2]

/-- Witness for C10 on a concrete processed no-hand frame. -/
theorem C10_nohand_zoom_unchanged_witness :
    sampleState.lastVideoTime ≠ 1 ∧
    processFrame sampleState 1 [] = (sampleStateAfter, some sampleOut) ∧
    sampleStateAfter.lastZoom = sampleState.lastZoom ∧
    sampleOut.zoom = sampleState.controls.zoom ∧
    sampleOut.hasBothHands = false := by
  have hne : sampleState.lastVideoTime ≠ 1 := by norm_num [sampleState]
  have h := C10_nohand_zoom_unchanged_hasBothHands_false.1 sampleState 1
    sampleStateAfter sampleOut hne eval_sample_nohand
  have h2 := C10_nohand_zoom_unchanged_hasBothHands_false.2 sampleState 1 []
    sampleStateAfter sampleOut eval_sample_nohand
  exact ⟨hne, eval_sample_nohand, h.1, h.2.1, h2⟩

/-- C4: on every processed frame with a detected hand (either fist
state), the smoothed-zoom ref is updated by
`lastZoom := lastZoom * 0.7 + (0.5 + tension * 2.0) * 0.3` and the
emitted zoom is that value clamped to `[0.5, 2.5]`. -/
theorem C4_zoom_smoothing :
    ∀ (st : TrackerState) (t : ℝ) (hand : List Landmark)
      (rest : List (List Landmark)) (st2 : TrackerState) (c : HandControls),
      st.lastVideoTime ≠ t →
      processFrame st t (hand :: rest) = (st2, some c) →
      st2.lastZoom = st.lastZoom * 0.7 + (0.5 + computeTension hand * 2.0) * 0.3 ∧
      c.zoom = min (max st2.lastZoom 0.5) 2.5 := by
  intro st t hand rest st2 c hne heq
  by_cases hf : computeTension hand > 0.7
  · rw [processFrame_closed st t hand rest hne hf] at heq
    simp only [closedFrame, Prod.mk.injEq, Option.some.injEq] at heq
    obtain ⟨hst, hc⟩ := heq
    rw [← hst, ← hc]
    exact ⟨rfl, rfl⟩
  · rw [processFrame_open st t hand rest hne hf] at heq
    simp only [openFrame, Prod.mk.injEq, Option.some.injEq] at heq
    obtain ⟨hst, hc⟩ := heq
    rw [← hst, ← hc]
    exact ⟨rfl, rfl⟩

/-- Witness for C4 on the first closed-fist frame from the initial
state: tension 1, so `lastZoom` becomes `1*0.7 + 2.5*0.3 = 1.45` and
the emitted zoom is `clamp(1.45)`. -/
theorem C4_zoom_smoothing_witness :
    initialState.lastVideoTime ≠ 1 ∧
    processFrame initialState 1 [closedHandAt 0 0] =
      (⟨1, (0, 0), 1.45, some (0, 0), ⟨1.45, 0, 0, false⟩⟩,
       some ⟨1.45, 0, 0, false⟩) ∧
    (1.45 : ℝ) = initialState.lastZoom * 0.7 +
      (0.5 + computeTension (closedHandAt 0 0) * 2.0) * 0.3 ∧
    (1.45 : ℝ) = min (max (1.45 : ℝ) 0.5) 2.5 := by
  have hne : initialState.lastVideoTime ≠ 1 := by norm_num [initialState]
  have h := C4_zoom_smoothing initialState 1 (closedHandAt 0 0) [] _ _ hne
    eval_frame1
  exact ⟨hne, eval_frame1, h.1, h.2⟩

/-- C5: on every processed frame with a detected hand, if the tension
exceeds 0.7 (fist closed) the pan ref is updated by
`pan := pan * 0.6 + delta * 0.4` with `delta` the wrist movement from
the anchor scaled by 6.0 and the y axis inverted, and the emitted pan
is that ref clamped to `[-1, 1]`; if the tension is at most 0.7,
panning is inactive: no delta is applied, the pan ref only decays by
0.85. -/
theorem C5_fist_pan_update :
    ∀ (st : TrackerState) (t : ℝ) (hand : List Landmark)
      (rest : List (List Landmark)) (st2 : TrackerState) (c : HandControls),
      st.lastVideoTime ≠ t →
      processFrame st t (hand :: rest) = (st2, some c) →
      (computeTension hand > 0.7 →
        st2.lastPan.1 = st.lastPan.1 * 0.6 +
          (((getL hand 0).x -
            (st.baseWristPos.getD ((getL hand 0).x, (getL hand 0).y)).1) * 6.0) * 0.4 ∧
        st2.lastPan.2 = st.lastPan.2 * 0.6 +
          (-(((getL hand 0).y -
            (st.baseWristPos.getD ((getL hand 0).x, (getL hand 0).y)).2)) * 6.0) * 0.4 ∧
        c.panX = clamp st2.lastPan.1 (-1) 1 ∧
        c.panY = clamp st2.lastPan.2 (-1) 1) ∧
      (computeTension hand ≤ 0.7 →
        st2.lastPan.1 = st.lastPan.1 * 0.85 ∧
        st2.lastPan.2 = st.lastPan.2 * 0.85) := by
  intro st t hand rest st2 c hne heq
  constructor
  · intro hf
    rw [processFrame_closed st t hand rest hne hf] at heq
    simp only [closedFrame, Prod.mk.injEq, Option.some.injEq] at heq
    obtain ⟨hst, hc⟩ := heq
    rw [← hst, ← hc]
    exact ⟨rfl, rfl, rfl, rfl⟩
  · intro hopen
    rw [processFrame_open st t hand rest hne (not_lt.mpr hopen)] at heq
    simp only [openFrame, Prod.mk.injEq, Option.some.injEq] at heq
    obtain ⟨hst, hc⟩ := heq
    rw [← hst]
    exact ⟨rfl, rfl⟩

/-- Witness for C5 on the second counterexample frame: wrist moved from
the anchor (0,0) to (1,0) with a closed fist, so the pan ref becomes
`0 * 0.6 + (1 * 6.0) * 0.4 = 2.4` and the emitted panX is
`clamp(2.4) = 1`. -/
theorem C5_fist_pan_update_witness :
    cexSt1.lastVideoTime ≠ 2 ∧
    computeTension (closedHandAt 1 0) > 0.7 ∧
    processFrame cexSt1 2 [closedHandAt 1 0] =
      (⟨2, (2.4, 0), 1.765, some (0, 0), ⟨1.765, 1, 0, false⟩⟩,
       some ⟨1.765, 1, 0, false⟩) ∧
    (2.4 : ℝ) = cexSt1.lastPan.1 * 0.6 +
      (((getL (closedHandAt 1 0) 0).x -
        (cexSt1.baseWristPos.getD ((getL (closedHandAt 1 0) 0).x,
          (getL (closedHandAt 1 0) 0).y)).1) * 6.0) * 0.4 ∧
    (1 : ℝ) = clamp (2.4 : ℝ) (-1) 1 := by
  have hne : cexSt1.lastVideoTime ≠ 2 := by rw [cexSt1_eq]; norm_num
  have hf : computeTension (closedHandAt 1 0) > 0.7 := by
    rw [computeTension_closedHandAt]; norm_num
  have h := (C5_fist_pan_update cexSt1 2 (closedHandAt 1 0) [] _ _ hne
    eval_frame2).1 hf
  exact ⟨hne, hf, eval_frame2, h.1, h.2.2.1⟩

theorem stepNoHand_lastPan (st : TrackerState) :
    (stepNoHand st).lastPan = (st.lastPan.1 * 0.9, st.lastPan.2 * 0.9) := by
  unfold stepNoHand
  rw [processFrame_nohand st (st.lastVideoTime + 1)
    (ne_of_lt (lt_add_one st.lastVideoTime))]
  rfl

theorem iterate_stepNoHand_lastPan (st : TrackerState) (k : ℕ) :
    (stepNoHand^[k] st).lastPan.1 = 0.9 ^ k * st.lastPan.1 ∧
    (stepNoHand^[k] st).lastPan.2 = 0.9 ^ k * st.lastPan.2 := by
  induction k with
  | zero => simp
  | succ m ih =>
      rw [Function.iterate_succ_apply', stepNoHand_lastPan]
      constructor
      · show (stepNoHand^[m] st).lastPan.1 * 0.9 = 0.9 ^ (m + 1) * st.lastPan.1
        rw [ih.1, pow_succ]
        ring
      · show (stepNoHand^[m] st).lastPan.2 * 0.9 = 0.9 ^ (m + 1) * st.lastPan.2
        rw [ih.2, pow_succ]
        ring

theorem panMag_iterate_stepNoHand (st : TrackerState) (k : ℕ) :
    panMag (stepNoHand^[k] st) = 0.9 ^ k * panMag st := by
  unfold panMag
  rw [(iterate_stepNoHand_lastPan st k).1, (iterate_stepNoHand_lastPan st k).2]
  have h : (0.9 : ℝ) ^ k * st.lastPan.1 * (0.9 ^ k * st.lastPan.1) +
      0.9 ^ k * st.lastPan.2 * (0.9 ^ k * st.lastPan.2) =
      ((0.9 : ℝ) ^ k) ^ 2 *
        (st.lastPan.1 * st.lastPan.1 + st.lastPan.2 * st.lastPan.2) := by
    ring
  rw [h, Real.sqrt_mul (by positivity), Real.sqrt_sq (by positivity)]

/-- C6: on every processed no-hand frame the anchor is cleared and both
pan components are multiplied by 0.9; hence over `k` consecutive
processed no-hand frames the pan magnitude is `0.9^k` times the
original, it strictly decreases from frame to frame as long as the pan
is nonzero, and it tends to 0. -/
theorem C6_nohand_pan_decay :
    (∀ (st : TrackerState) (t : ℝ) (st2 : TrackerState) (c : HandControls),
        st.lastVideoTime ≠ t → processFrame st t [] = (st2, some c) →
        st2.baseWristPos = none ∧
        st2.lastPan.1 = st.lastPan.1 * 0.9 ∧
        st2.lastPan.2 = st.lastPan.2 * 0.9) ∧
    (∀ (st : TrackerState) (k : ℕ),
        panMag (stepNoHand^[k] st) = 0.9 ^ k * panMag st) ∧
    (∀ (st : TrackerState) (k : ℕ), panMag st ≠ 0 →
        panMag (stepNoHand^[k + 1] st) < panMag (stepNoHand^[k] st)) ∧
    (∀ st : TrackerState,
        Filter.Tendsto (fun k => panMag (stepNoHand^[k] st))
          Filter.atTop (nhds 0)) := by
  refine ⟨?_, panMag_iterate_stepNoHand, ?_, ?_⟩
  · intro st t st2 c hne heq
    rw [processFrame_nohand st t hne] at heq
    simp only [noHandFrame, Prod.mk.injEq, Option.some.injEq] at heq
    obtain ⟨hst, hc⟩ := heq
    rw [← hst]
    exact ⟨rfl, rfl, rfl⟩
  · intro st k hne
    have hpos : 0 < panMag st :=
      lt_of_le_of_ne (Real.sqrt_nonneg _) (Ne.symm hne)
    rw [panMag_iterate_stepNoHand st (k + 1), panMag_iterate_stepNoHand st k]
    have hpow : (0.9 : ℝ) ^ (k + 1) < 0.9 ^ k := by
      rw [pow_succ]
      nlinarith [pow_pos (show (0 : ℝ) < 0.9 by norm_num) k]
    exact mul_lt_mul_of_pos_right hpow hpos
  · intro st
    have h := (tendsto_pow_atTop_nhds_zero_of_lt_one
      (show (0 : ℝ) ≤ 0.9 by norm_num) (by norm_num)).mul_const (panMag st)
    rw [zero_mul] at h
    have hfe : (fun k => panMag (stepNoHand^[k] st)) =
        fun k => (0.9 : ℝ) ^ k * panMag st :=
      funext (panMag_iterate_stepNoHand st)
    rw [hfe]
    exact h

/-- Witness for C6 on a concrete state with pan `(1, 0)`: the no-hand
frame clears the anchor and the pan magnitude strictly decreases. -/
theorem C6_nohand_pan_decay_witness :
    sampleState.lastVideoTime ≠ 1 ∧
    processFrame sampleState 1 [] = (sampleStateAfter, some sampleOut) ∧
    sampleStateAfter.baseWristPos = none ∧
    panMag sampleState ≠ 0 ∧
    panMag (stepNoHand^[0 + 1] sampleState) < panMag (stepNoHand^[0] sampleState) := by
  have hne : sampleState.lastVideoTime ≠ 1 := by norm_num [sampleState]
  have hmag : panMag sampleState = 1 := by
    simp [panMag, sampleState]
  have hmne : panMag sampleState ≠ 0 := by rw [hmag]; norm_num
  have h1 := C6_nohand_pan_decay.1 sampleState 1 sampleStateAfter sampleOut hne
    eval_sample_nohand
  have h3 := C6_nohand_pan_decay.2.2.1 sampleState 0 hmne
  exact ⟨hne, eval_sample_nohand, h1.1, hmne, h3⟩

theorem zoom_invariant (st : TrackerState) (h : Reachable st) :
    0.5 ≤ st.controls.zoom ∧ st.controls.zoom ≤ 2.5 := by
  induction h with
  | init => norm_num [initialState]
  | step st t hands _ ih =>
      by_cases hskip : st.lastVideoTime = t
      · rw [processFrame_skip st t hands hskip]
        exact ih
      · cases hands with
        | nil =>
            rw [processFrame_nohand st t hskip]
            exact ih
        | cons hand rest =>
            by_cases hf : computeTension hand > 0.7
            · rw [processFrame_closed st t hand rest hskip hf]
              exact ⟨le_min (le_max_right _ _) (by norm_num), min_le_right _ _⟩
            · rw [processFrame_open st t hand rest hskip hf]
              exact ⟨le_min (le_max_right _ _) (by norm_num), min_le_right _ _⟩

/-- C1 counterexample: from the initial state, two closed-fist frames
drive the (unclamped) pan ref to 2.4; the next open-hand frame emits
`panX = 2.4 * 0.85 = 2.04 > 1`, so emitted pan values are not always
in `[-1, 1]`. -/
theorem C1_signal_ranges_cex :
    Reachable cexSt2 ∧
    (processFrame cexSt2 3 [openHandAt 0 0]).2 = some cexOut ∧
    1 < cexOut.panX := by
  refine ⟨?_, ?_, by norm_num [cexOut]⟩
  · have h1 : Reachable cexSt1 :=
      Reachable.step initialState 1 [closedHandAt 0 0] Reachable.init
    exact Reachable.step cexSt1 2 [closedHandAt 1 0] h1
  · rw [eval_frame3]

/-- C1 amended: for every signal emitted from a reachable state, the
zoom lies in `[0.5, 2.5]`; the pan values lie in `[-1, 1]` on frames
with a detected hand whose tension exceeds 0.7 (the only branch that
clamps them) — on open-hand and no-hand frames the emitted pan is the
decayed ref and may transiently exceed that range. -/
theorem C1_signal_ranges_amended :
    ∀ st : TrackerState, Reachable st →
      ∀ (t : ℝ) (hands : List (List Landmark)) (st2 : TrackerState)
        (c : HandControls),
        processFrame st t hands = (st2, some c) →
        (0.5 ≤ c.zoom ∧ c.zoom ≤ 2.5) ∧
        (∀ (hand : List Landmark) (rest : List (List Landmark)),
          hands = hand :: rest → computeTension hand > 0.7 →
          -1 ≤ c.panX ∧ c.panX ≤ 1 ∧ -1 ≤ c.panY ∧ c.panY ≤ 1) := by
  intro st hre t hands st2 c heq
  constructor
  · have hc := emitted_eq_controls st t hands st2 c heq
    have hstep : Reachable st2 := by
      have hr := Reachable.step st t hands hre
      rw [heq] at hr
      exact hr
    rw [hc]
    exact zoom_invariant st2 hstep
  · intro hand rest hh hf
    subst hh
    by_cases hskip : st.lastVideoTime = t
    · rw [processFrame_skip st t _ hskip] at heq
      simp only [Prod.mk.injEq] at heq
      exact absurd heq.2 (by simp)
    · rw [processFrame_closed st t hand rest hskip hf] at heq
      simp only [closedFrame, Prod.mk.injEq, Option.some.injEq] at heq
      obtain ⟨hst, hc⟩ := heq
      rw [← hc]
      refine ⟨le_max_left _ _, max_le (by norm_num) (min_le_left _ _),
        le_max_left _ _, max_le (by norm_num) (min_le_left _ _)⟩

/-- Witness for C1 amended on the first closed-fist frame from the
initial state: emitted zoom 1.45 and pan 0, all in range. -/
theorem C1_signal_ranges_amended_witness :
    Reachable initialState ∧
    processFrame initialState 1 [closedHandAt 0 0] =
      (⟨1, (0, 0), 1.45, some (0, 0), ⟨1.45, 0, 0, false⟩⟩,
       some ⟨1.45, 0, 0, false⟩) ∧
    computeTension (closedHandAt 0 0) > 0.7 ∧
    (0.5 ≤ (1.45 : ℝ) ∧ (1.45 : ℝ) ≤ 2.5) ∧
    (-1 ≤ (0 : ℝ) ∧ (0 : ℝ) ≤ 1 ∧ -1 ≤ (0 : ℝ) ∧ (0 : ℝ) ≤ 1) := by
  have hre : Reachable initialState := Reachable.init
  have hf : computeTension (closedHandAt 0 0) > 0.7 := by
    rw [computeTension_closedHandAt]; norm_num
  have h := C1_signal_ranges_amended initialState hre 1 [closedHandAt 0 0] _ _
    eval_frame1
  exact ⟨hre, eval_frame1, hf, h.1, h.2 (closedHandAt 0 0) [] rfl hf⟩
